import Mathlib

/-!
Shallow embedding of `featuretools/entityset/deserialize.py` and proofs about it.

Python dicts are modelled as insertion-ordered association lists over string
keys; JSON scalar values as the inductive `PVal`; raised exceptions as
`Except PyError`; pandas dataframes as named lists of cell columns.  External
I/O (the filesystem, remote fetch) is passed in explicitly as data.  Helpers
that the excerpt imports from elsewhere in the package (`check_schema_version`,
`FORMATS`, `find_variable_types`, `Relationship.from_dictionary`, the
entity-set registration routines, path classification) are modelled from the
spec and marked as such in their doc comments.
-/

set_option autoImplicit false

namespace Featuretools

/-- A JSON-like scalar value appearing in a manifest description. -/
inductive PVal
  | str (s : String)
  | int (n : Int)
  | bool (b : Bool)
  | null
  deriving DecidableEq, Repr

/-- A Python dict with string keys, as an insertion-ordered association list. -/
abbrev Dict := List (String × PVal)

/-- Python `d.get(k)` / `d[k]` lookup: first binding of the key. -/
def dictGet (d : Dict) (k : String) : Option PVal :=
  match d with
  | [] => none
  | (k', v) :: rest => if k' = k then some v else dictGet rest k

/-- Exceptions the deserializer can raise. -/
inductive PyError
  | keyError (k : String)
  | typeError (msg : String)
  | valueError (msg : String)
  | schemaVersionError (version : String)
  | assertionError (msg : String)
  | fileNotFoundError (file : String)
  deriving DecidableEq, Repr

/-- Python `d[k]` indexing that raises `KeyError` when the key is absent. -/
def dictIndex (d : Dict) (k : String) : Except PyError PVal :=
  match dictGet d k with
  | some v => Except.ok v
  | none => Except.error (PyError.keyError k)

/-- Equality of embedded results is decidable. -/
instance {ε α : Type} [DecidableEq ε] [DecidableEq α] : DecidableEq (Except ε α) :=
  fun a b =>
    match a, b with
    | Except.ok x, Except.ok y =>
      if h : x = y then isTrue (by rw [h])
      else isFalse (by intro hc; cases hc; exact h rfl)
    | Except.error x, Except.error y =>
      if h : x = y then isTrue (by rw [h])
      else isFalse (by intro hc; cases hc; exact h rfl)
    | Except.ok _, Except.error _ => isFalse (by intro hc; cases hc)
    | Except.error _, Except.ok _ => isFalse (by intro hc; cases hc)

/-- Remove every binding of a key (Python dicts hold each key once). -/
def dictErase (d : Dict) (k : String) : Dict :=
  d.filter (fun kv => kv.1 ≠ k)

/-- Python `d.pop(k)`: the value and the dict without the key, or `none` (KeyError). -/
def dictPop (d : Dict) (k : String) : Option (PVal × Dict) :=
  match dictGet d k with
  | some v => some (v, dictErase d k)
  | none => none

/-- Python `d.update(other)`: existing keys keep their position with the new value,
keys new to `d` are appended in `other`'s order. -/
def dictUpdate (d other : Dict) : Dict :=
  d.map (fun kv => (kv.1, (dictGet other kv.1).getD kv.2)) ++
    other.filter (fun kv => dictGet d kv.1 = none)

/-- A variable's type tag: a bare string naming a type, or an object carrying
the type name under `"value"` plus constructor keyword arguments. -/
inductive TypeTag
  | str (name : String)
  | obj (fields : Dict)
  deriving DecidableEq, Repr

/-- One column's description in the manifest (`{id, type, properties}`;
`interesting_values` is `properties.interesting_values`). -/
structure VariableDescription where
  id : String
  type : TypeTag
  interesting_values : List PVal
  deriving DecidableEq, Repr

/-- The variable types of the package's registry that this module can name. -/
inductive VariableType
  | Index
  | Id
  | Numeric
  | Categorical
  | Boolean
  | Datetime
  | Text
  | LatLong
  | Ordinal
  | Timedelta
  | Unknown
  deriving DecidableEq, Repr

/-- Modelled from the spec: the registry of known variable types returned by
`find_variable_types` (from `variable_types.variable`, outside this excerpt),
mapping each type's string tag to its class; the key `"None"` maps to the
generic Unknown type. -/
def find_variable_types : List (String × VariableType) :=
  [("index", VariableType.Index),
   ("id", VariableType.Id),
   ("numeric", VariableType.Numeric),
   ("categorical", VariableType.Categorical),
   ("boolean", VariableType.Boolean),
   ("datetime", VariableType.Datetime),
   ("text", VariableType.Text),
   ("latlong", VariableType.LatLong),
   ("ordinal", VariableType.Ordinal),
   ("timedelta", VariableType.Timedelta),
   ("None", VariableType.Unknown)]

/-- Registry lookup by string tag. -/
def registryLookup (name : String) : Option VariableType :=
  match find_variable_types.find? (fun kv => kv.1 = name) with
  | some kv => some kv.2
  | none => none

/-- Embedding of `variable_types.get(type, variable_types.get('None'))`: an unknown key, or
a key that is not a string at all, falls back to the Unknown type registered
under `"None"`. -/
def registryGet (typeKey : PVal) : VariableType :=
  match typeKey with
  | PVal.str s =>
    match registryLookup s with
    | some t => t
    | none => VariableType.Unknown
  | _ => VariableType.Unknown

/-- Modelled from the spec: `LatLong.type_string`, the string tag of the
geographic-coordinate variable type. -/
def LatLongTypeString : String := "latlong"

/-- A live variable instance bound to an entity. -/
structure VariableInstance where
  id : String
  vtype : VariableType
  entity : String
  kwargs : Dict
  interesting_values : List PVal
  deriving DecidableEq, Repr

/-- What `description_to_variable` returns: the type class alone when no
entity is given, or a bound instance. -/
inductive VariableResult
  | cls (t : VariableType)
  | inst (v : VariableInstance)
  deriving DecidableEq, Repr

/-- The variable type carried by a `VariableResult`. -/
def VariableResult.vtype : VariableResult → VariableType
  | VariableResult.cls t => t
  | VariableResult.inst v => v.vtype

/-- Lines 32-33: the type key used for the registry lookup (the bare string,
or the object's popped `"value"` field) together with the type tag as it
stands after the pop.  Popping a missing `"value"` raises a KeyError. -/
def typeTagKey : TypeTag → Except PyError (PVal × TypeTag)
  | TypeTag.str name => Except.ok (PVal.str name, TypeTag.str name)
  | TypeTag.obj fields =>
    match dictPop fields "value" with
    | some (v, rest) => Except.ok (v, TypeTag.obj rest)
    | none => Except.error (PyError.keyError "value")

/-- Whether a type key names a known variable type in the registry. -/
def resolvesKnown (key : PVal) : Bool :=
  match key with
  | PVal.str s => (registryLookup s).isSome
  | _ => false

/-- Embedding of `description_to_variable(description, entity)`.  The Python code mutates
`description['type']` in place by popping its `"value"` field; the embedding
returns the variable together with the description as it stands after the
call.  A KeyError from the pop is an error result. -/
def description_to_variable (description : VariableDescription)
    (entity : Option String) :
    Except PyError (VariableResult × VariableDescription) :=
  match typeTagKey description.type with
  | Except.error e => Except.error e
  | Except.ok (typeKey, restTag) =>
    let vclass := registryGet typeKey
    let description' := { description with type := restTag }
    match entity with
    | none => Except.ok (VariableResult.cls vclass, description')
    | some ent =>
      let kwargs : Dict :=
        match restTag with
        | TypeTag.str _ => []
        | TypeTag.obj rest => rest
      Except.ok
        (VariableResult.inst
          { id := description.id
            vtype := vclass
            entity := ent
            kwargs := kwargs
            interesting_values := description.interesting_values },
         description')

/-- One cell of a loaded dataframe: a text cell, an exact numeric cell, a
tuple of numbers (what latlong decoding produces, and what pickled latlong
data already contains), or a missing value. -/
inductive Cell
  | str (s : String)
  | num (q : ℚ)
  | tup (qs : List ℚ)
  | null
  deriving DecidableEq, Repr

/-- A pandas dataframe, modelled as named columns of cells. -/
structure DataFrame where
  columns : List (String × List Cell)
  deriving DecidableEq, Repr

/-- pandas `DataFrame.astype(dtypes)`: an external collaborator of this
module.  On this cell model the declared-dtype cast is value-preserving, so it
is the identity; dtype-mismatch failures inside pandas are out of scope. -/
def DataFrame.astype (df : DataFrame) (_dtypes : Dict) : DataFrame := df

/-- Strip leading and trailing whitespace from a character list. -/
def trimChars (cs : List Char) : List Char :=
  ((cs.dropWhile Char.isWhitespace).reverse.dropWhile Char.isWhitespace).reverse

/-- Split a character list on the comma separator, as Python `split(",")`. -/
def splitOnComma : List Char → List (List Char)
  | [] => [[]]
  | c :: cs =>
    if c = ',' then [] :: splitOnComma cs
    else
      match splitOnComma cs with
      | [] => [[c]]
      | p :: ps => (c :: p) :: ps

/-- The numeric value of a digit run. -/
def digitsVal (ds : List Char) : ℕ :=
  ds.foldl (fun a c => 10 * a + (c.toNat - 48)) 0

/-- Python `float(s)` on a decimal string: optional surrounding whitespace,
optional sign, an integer part and an optional fractional part, at least one
digit in total.  The value is kept exact as a rational, built with `mkRat`
from integer arithmetic. -/
def pyFloat (s : String) : Except PyError ℚ :=
  let cs0 := trimChars s.data
  let signBody : Int × List Char :=
    match cs0 with
    | '-' :: rest => (-1, rest)
    | '+' :: rest => (1, rest)
    | _ => (1, cs0)
  let sign := signBody.1
  let intPart := signBody.2.takeWhile Char.isDigit
  let rest := signBody.2.dropWhile Char.isDigit
  match rest with
  | [] =>
    if intPart.isEmpty then
      Except.error (PyError.valueError ("could not convert string to float: " ++ s))
    else Except.ok (mkRat (sign * Int.ofNat (digitsVal intPart)) 1)
  | c :: fracPart =>
    if c = '.' ∧ fracPart.all Char.isDigit ∧ (intPart ≠ [] ∨ fracPart ≠ []) then
      Except.ok (mkRat
        (sign * Int.ofNat (digitsVal intPart * 10 ^ fracPart.length + digitsVal fracPart))
        (10 ^ fracPart.length))
    else
      Except.error (PyError.valueError ("could not convert string to float: " ++ s))

/-- Error-propagating map over a list, left to right. -/
def exceptMap {α β : Type} (f : α → Except PyError β) : List α → Except PyError (List β)
  | [] => Except.ok []
  | a :: l =>
    match f a with
    | Except.error e => Except.error e
    | Except.ok b =>
      match exceptMap f l with
      | Except.error e => Except.error e
      | Except.ok bs => Except.ok (b :: bs)

/-- Embedding of `parse_latlong(x)` (lines 149-150): strip the first and last characters of the cell's
string, split on comma, parse each part as a float, and build a tuple.  A
non-string cell cannot be sliced (`x[1:-1]`) and raises a TypeError. -/
def parse_latlong (x : Cell) : Except PyError Cell :=
  match x with
  | Cell.str s =>
    let parts := (splitOnComma ((s.data.drop 1).dropLast)).map String.mk
    match exceptMap pyFloat parts with
    | Except.ok qs => Except.ok (Cell.tup qs)
    | Except.error e => Except.error e
  | _ => Except.error (PyError.typeError "latlong cell is not subscriptable")

/-- The data files on disk, keyed by absolute file path and already decoded
by the corresponding pandas reader. -/
abbrev DataFS := List (String × DataFrame)

/-- Embedding of `os.path.join` for the paths this module builds. -/
def osPathJoin (a b : String) : String := a ++ "/" ++ b

/-- A pandas file read (`read_csv`/`read_parquet`/`read_pickle`): look the
file up in the filesystem; a missing file raises. -/
def pdReadFile (fs : DataFS) (file : String) : Except PyError DataFrame :=
  match fs.find? (fun kv => kv.1 = file) with
  | some kv => Except.ok kv.2
  | none => Except.error (PyError.fileNotFoundError file)

/-- Modelled from the spec: `FORMATS` (from `entityset.serialize`, outside
this excerpt), the supported storage format tags `{csv, parquet, pickle}`. -/
def FORMATS : List String := ["csv", "parquet", "pickle"]

/-- Per-entity loading info: format tag, relative location, load parameters,
and the declared per-column dtypes (`properties.dtypes`). -/
structure LoadingInfo where
  location : String
  type : String
  params : Dict
  dtypes : Dict
  deriving DecidableEq, Repr

/-- One table's description in the manifest.  `last_time_index` and
`secondary_time_index` live under `properties` in the JSON. -/
structure EntityDescription where
  id : String
  vars : List VariableDescription
  index : Option String
  time_index : Option String
  secondary_time_index : Option Dict
  last_time_index : Bool
  loading_info : LoadingInfo
  deriving DecidableEq, Repr

/-- Lines 126-139: dispatch on the declared storage format and read the raw
dataframe.  The csv branch indexes `engine`, `compression` and `encoding` in
the load parameters, the parquet branch indexes `engine`, the pickle branch
forwards all parameters; any other tag raises a ValueError listing the
supported formats. -/
def readFormatDispatch (description : EntityDescription) (path : String)
    (fs : DataFS) : Except PyError DataFrame :=
  let file := osPathJoin path description.loading_info.location
  let kwargs := description.loading_info.params
  let load_format := description.loading_info.type
  if load_format = "csv" then
    match dictIndex kwargs "engine", dictIndex kwargs "compression",
        dictIndex kwargs "encoding" with
    | Except.ok _, Except.ok _, Except.ok _ => pdReadFile fs file
    | Except.error e, _, _ => Except.error e
    | _, Except.error e, _ => Except.error e
    | _, _, Except.error e => Except.error e
  else if load_format = "parquet" then
    match dictIndex kwargs "engine" with
    | Except.ok _ => pdReadFile fs file
    | Except.error e => Except.error e
  else if load_format = "pickle" then
    pdReadFile fs file
  else
    Except.error (PyError.valueError
      ("must be one of the following formats: " ++ String.intercalate ", " FORMATS))

/-- Lines 144-147: collect the ids of variables whose type tag's `"value"`
entry names the latlong type.  The scan indexes `var_description['type']['value']`
unconditionally: a bare-string tag is not subscriptable by a string key
(TypeError), and an object tag without `"value"` raises a KeyError. -/
def latlongScan : List VariableDescription → Except PyError (List String)
  | [] => Except.ok []
  | vd :: rest =>
    let valueEntry : Except PyError PVal :=
      match vd.type with
      | TypeTag.str _ => Except.error (PyError.typeError "string indices must be integers")
      | TypeTag.obj fields => dictIndex fields "value"
    match valueEntry with
    | Except.error e => Except.error e
    | Except.ok v =>
      match latlongScan rest with
      | Except.error e => Except.error e
      | Except.ok tail =>
        Except.ok (if v = PVal.str LatLongTypeString then vd.id :: tail else tail)

/-- Apply `parse_latlong` to the cells of every column named `column`,
leaving the other columns unchanged. -/
def applyLatlongCols (column : String) :
    List (String × List Cell) → Except PyError (List (String × List Cell))
  | [] => Except.ok []
  | kv :: rest =>
    let headResult : Except PyError (String × List Cell) :=
      if kv.1 = column then
        match exceptMap parse_latlong kv.2 with
        | Except.ok cells => Except.ok (kv.1, cells)
        | Except.error e => Except.error e
      else Except.ok kv
    match headResult with
    | Except.error e => Except.error e
    | Except.ok kv' =>
      match applyLatlongCols column rest with
      | Except.error e => Except.error e
      | Except.ok rest' => Except.ok (kv' :: rest')

/-- Embedding of `dataframe[column].apply(parse_latlong)` assigned back to the column; a
missing column raises a KeyError. -/
def applyLatlong (df : DataFrame) (column : String) : Except PyError DataFrame :=
  if df.columns.any (fun kv => kv.1 = column) then
    match applyLatlongCols column df.columns with
    | Except.ok cols => Except.ok ⟨cols⟩
    | Except.error e => Except.error e
  else Except.error (PyError.keyError column)

/-- Lines 152-153: decode each collected latlong column in order. -/
def applyLatlongs (df : DataFrame) : List String → Except PyError DataFrame
  | [] => Except.ok df
  | c :: cs =>
    match applyLatlong df c with
    | Except.ok df' => applyLatlongs df' cs
    | Except.error e => Except.error e

/-- Embedding of `read_entity_data(description, path)` (lines 113-155): read the raw
dataframe per the declared format, cast to the declared dtypes, and for csv
and parquet data decode every latlong-typed column. -/
def read_entity_data (description : EntityDescription) (path : String)
    (fs : DataFS) : Except PyError DataFrame :=
  match readFormatDispatch description path fs with
  | Except.error e => Except.error e
  | Except.ok raw =>
    let dataframe := raw.astype description.loading_info.dtypes
    if description.loading_info.type = "parquet" ∨ description.loading_info.type = "csv" then
      match latlongScan description.vars with
      | Except.error e => Except.error e
      | Except.ok latlongs => applyLatlongs dataframe latlongs
    else Except.ok dataframe

/-- Embedding of `empty_dataframe(description)` (lines 99-110): a dataframe with one empty
column per variable, cast to the declared dtypes. -/
def empty_dataframe (description : EntityDescription) : DataFrame :=
  let columns := description.vars.map (fun v => v.id)
  (DataFrame.mk (columns.map (fun c => (c, [])))).astype
    description.loading_info.dtypes

/-- Modelled from the spec: a reconstructed table registered in an entity-set
(the entity-set class hierarchy is an external collaborator). -/
structure Entity where
  id : String
  dataframe : DataFrame
  index : Option String
  time_index : Option String
  secondary_time_index : Option Dict
  variable_types : List (String × VariableResult)
  deriving DecidableEq, Repr

/-- A resolved relationship between a parent (entity, column) and a child
(entity, column). -/
structure Relationship where
  parent_entity : String
  parent_variable : String
  child_entity : String
  child_variable : String
  deriving DecidableEq, Repr

/-- The reconstructed entity-set container. -/
structure EntitySet where
  id : String
  entities : List Entity
  relationships : List Relationship
  deriving DecidableEq, Repr

/-- Modelled from the spec: `EntitySet.entity_from_dataframe`, the entity-set
class's table-registration routine; it registers the table under the entity's
id with the index columns and variable-type mapping passed through. -/
def EntitySet.entity_from_dataframe (es : EntitySet) (entityId : String)
    (dataframe : DataFrame) (index : Option String) (time_index : Option String)
    (secondary_time_index : Option Dict)
    (variable_types : List (String × VariableResult)) : EntitySet :=
  { es with entities := es.entities ++
      [{ id := entityId
         dataframe := dataframe
         index := index
         time_index := time_index
         secondary_time_index := secondary_time_index
         variable_types := variable_types }] }

/-- Find a registered entity by id. -/
def EntitySet.findEntity (es : EntitySet) (entityId : String) : Option Entity :=
  es.entities.find? (fun e => e.id = entityId)

/-- Modelled from the spec: `EntitySet.add_relationship` appends the resolved
relationship to the entity-set. -/
def EntitySet.add_relationship (es : EntitySet) (r : Relationship) : EntitySet :=
  { es with relationships := es.relationships ++ [r] }

/-- A relationship description from the manifest: parent and child
(entity id, column id) references. -/
structure RelationshipDescription where
  parent_entity : String
  parent_variable : String
  child_entity : String
  child_variable : String
  deriving DecidableEq, Repr

/-- Modelled from the spec: `Relationship.from_dictionary` (from
`entityset.relationship`, outside this excerpt) resolves the parent and child
references against the entities and columns already registered in the
entity-set; a reference to a missing entity or column fails. -/
def relationship_from_dictionary (rd : RelationshipDescription)
    (es : EntitySet) : Except PyError Relationship :=
  match es.findEntity rd.parent_entity, es.findEntity rd.child_entity with
  | some pe, some ce =>
    if pe.variable_types.any (fun kv => kv.1 = rd.parent_variable) then
      if ce.variable_types.any (fun kv => kv.1 = rd.child_variable) then
        Except.ok
          { parent_entity := rd.parent_entity
            parent_variable := rd.parent_variable
            child_entity := rd.child_entity
            child_variable := rd.child_variable }
      else Except.error (PyError.keyError rd.child_variable)
    else Except.error (PyError.keyError rd.parent_variable)
  | none, _ => Except.error (PyError.keyError rd.parent_entity)
  | _, none => Except.error (PyError.keyError rd.child_entity)

/-- The top-level manifest: entity-set id, schema-version tag, ordered
entity-id -> entity-description mapping, relationship list, and the directory
path stamped on it when it was read from disk. -/
structure Description where
  id : String
  schema_version : String
  entities : List (String × EntityDescription)
  relationships : List RelationshipDescription
  path : Option String
  deriving DecidableEq, Repr

/-- Modelled from the spec: the schema version this reader supports. -/
def SCHEMA_VERSION : String := "3.0.0"

/-- Modelled from the spec: whether a manifest's declared schema-version tag
is compatible with the reader's supported version. -/
def schemaCompatible (version : String) : Bool := version = SCHEMA_VERSION

/-- Modelled from the spec: `check_schema_version` (from `utils.gen_utils`,
outside this excerpt) validates the manifest's declared schema-version tag
against the reader's supported version and raises when incompatible. -/
def check_schema_version (description : Description) : Except PyError Unit :=
  if schemaCompatible description.schema_version then Except.ok ()
  else Except.error (PyError.schemaVersionError description.schema_version)

/-- Observable side effects of reconstruction, in order of occurrence: a
table's data file being loaded, a table being registered in the entity-set, a
relationship being added, and the bulk add-last-time-indexes pass. -/
inductive Event
  | loadTable (entityId : String)
  | registerEntity (entityId : String)
  | addRelationship (parentEntity childEntity : String)
  | addLastTimeIndexes (updated_entities : List String)
  deriving DecidableEq, Repr

/-- The dict comprehension of line 54: reconstruct each variable description
(without an entity, so type classes only) keyed by variable id, threading the
in-place pop of each object tag's `"value"` field. -/
def variablesToTypes : List VariableDescription →
    Except PyError (List (String × VariableResult) × List VariableDescription)
  | [] => Except.ok ([], [])
  | vd :: rest =>
    match description_to_variable vd none with
    | Except.error e => Except.error e
    | Except.ok (v, vd') =>
      match variablesToTypes rest with
      | Except.error e => Except.error e
      | Except.ok (tail, rest') => Except.ok ((vd.id, v) :: tail, vd' :: rest')

/-- Embedding of `description_to_entity(description, entityset, path)` (lines 42-61): load
the table (or synthesize an empty one when no path is given), reconstruct the
variable-type mapping, and register the table.  Returns the grown entity-set,
the description after its in-place mutations, and the event trace. -/
def description_to_entity (description : EntityDescription)
    (entityset : EntitySet) (path : Option String) (fs : DataFS) :
    List Event × Except PyError (EntitySet × EntityDescription) :=
  match path with
  | some p =>
    match read_entity_data description p fs with
    | Except.error e => ([], Except.error e)
    | Except.ok dataframe =>
      match variablesToTypes description.vars with
      | Except.error e => ([Event.loadTable description.id], Except.error e)
      | Except.ok (variable_types, vars') =>
        ([Event.loadTable description.id, Event.registerEntity description.id],
         Except.ok
           (entityset.entity_from_dataframe description.id dataframe
              description.index description.time_index
              description.secondary_time_index variable_types,
            { description with vars := vars' }))
  | none =>
    match variablesToTypes description.vars with
    | Except.error e => ([], Except.error e)
    | Except.ok (variable_types, vars') =>
      ([Event.registerEntity description.id],
       Except.ok
         (entityset.entity_from_dataframe description.id
            (empty_dataframe description) description.index
            description.time_index description.secondary_time_index
            variable_types,
          { description with vars := vars' }))

/-- Line 83: `entity['loading_info']['params'].update(kwargs)`, the in-place
merge of the caller kwargs into an entity's loading params. -/
def mergeEntityParams (kwargs : Dict) (e : EntityDescription) : EntityDescription :=
  { e with loading_info :=
    { e.loading_info with params := dictUpdate e.loading_info.params kwargs } }

/-- The entity loop of lines 81-87: for each entity in manifest order, merge
the caller kwargs into its loading params in place, reconstruct and register
it, and record its id when it is flagged `last_time_index`.  Returns the
entity-set, the mutated entity mapping, and the flagged ids in manifest
order. -/
def processEntities (fs : DataFS) (path : Option String) (kwargs : Dict) :
    List (String × EntityDescription) → EntitySet →
    List Event × Except PyError (EntitySet × List (String × EntityDescription) × List String)
  | [], es => ([], Except.ok (es, [], []))
  | (key, entity0) :: rest, es =>
    let entity := mergeEntityParams kwargs entity0
    match description_to_entity entity es path fs with
    | (evs, Except.error e) => (evs, Except.error e)
    | (evs, Except.ok (es1, entity')) =>
      let flagged := if entity.last_time_index then [entity.id] else []
      match processEntities fs path kwargs rest es1 with
      | (evs2, Except.error e) => (evs ++ evs2, Except.error e)
      | (evs2, Except.ok (es2, rest', flaggedRest)) =>
        (evs ++ evs2, Except.ok (es2, (key, entity') :: rest', flagged ++ flaggedRest))

/-- The relationship loop of lines 89-91: resolve each relationship
description against the entity-set built so far and add it. -/
def processRelationships : List RelationshipDescription → EntitySet →
    List Event × Except PyError EntitySet
  | [], es => ([], Except.ok es)
  | rd :: rest, es =>
    match relationship_from_dictionary rd es with
    | Except.error e => ([], Except.error e)
    | Except.ok r =>
      match processRelationships rest (es.add_relationship r) with
      | (evs, result) =>
        (Event.addRelationship rd.parent_entity rd.child_entity :: evs, result)

/-- Embedding of `description_to_entityset(description, **kwargs)` (lines 64-96): check the
schema version, create an empty entity-set, register every entity (loading
data when the manifest carries a path), resolve every relationship, and, when
any entity was flagged, run the bulk add-last-time-indexes pass (an external
entity-set method, recorded as an event) over exactly the flagged ids.
Returns the event trace alongside the entity-set and the description after
its in-place mutations. -/
def description_to_entityset (description : Description) (fs : DataFS)
    (kwargs : Dict) :
    List Event × Except PyError (EntitySet × Description) :=
  match check_schema_version description with
  | Except.error e => ([], Except.error e)
  | Except.ok _ =>
    let path := description.path
    let entityset : EntitySet := { id := description.id, entities := [], relationships := [] }
    match processEntities fs path kwargs description.entities entityset with
    | (evs, Except.error e) => (evs, Except.error e)
    | (evs, Except.ok (es1, entities', last_time_index)) =>
      match processRelationships description.relationships es1 with
      | (evs2, Except.error e) => (evs ++ evs2, Except.error e)
      | (evs2, Except.ok es2) =>
        let description' := { description with entities := entities' }
        if last_time_index.length ≠ 0 then
          (evs ++ evs2 ++ [Event.addLastTimeIndexes last_time_index],
           Except.ok (es2, description'))
        else (evs ++ evs2, Except.ok (es2, description'))

/-- The local filesystem as the manifest reader sees it: which directories
exist, and the parsed `data_description.json` found under each directory. -/
structure ManifestFS where
  dirs : List String
  manifests : List (String × Description)
  deriving DecidableEq, Repr

/-- Embedding of `read_data_description(path)` (lines 158-174): assert the (absolute)
directory exists, read and parse `data_description.json` from it, and stamp
the manifest with the directory path.  Paths are already absolute names in
this model. -/
def read_data_description (fs : ManifestFS) (path : String) :
    Except PyError Description :=
  if path ∈ fs.dirs then
    let file := osPathJoin path "data_description.json"
    match fs.manifests.find? (fun kv => kv.1 = file) with
    | some kv => Except.ok { kv.2 with path := some path }
    | none => Except.error (PyError.fileNotFoundError file)
  else
    Except.error (PyError.assertionError ("\"" ++ path ++ "\" does not exist"))

/-- The profile selector accepted by `read_entityset`: a named credential
profile, the literal `False`, or unset (`None`). -/
inductive ProfileName
  | str (s : String)
  | false_
  | none_
  deriving DecidableEq, Repr

/-- Modelled from the spec: the classification of the input path by
`_is_url` / `_is_s3` (from `utils.wrangle`, outside this excerpt): an HTTP(S)
URL, an object-storage (S3) URI, or a local directory. -/
inductive PathKind
  | url
  | s3
  | local
  deriving DecidableEq, Repr

/-- The transfer call `read_entityset` makes for a remote path: the streaming
(smart-open) download, carrying a named-profile boto session in its transport
params when one was given, or the dedicated unauthenticated s3fs download. -/
inductive TransferCall
  | use_smartopen_es (transport_profile : Option String)
  | use_s3fs_es
  deriving DecidableEq, Repr

/-- Lines 190-203: the transfer-strategy choice for a remote path.  A URL is
always fetched by streaming download with no transport params; an S3 path
uses the named-profile session when the selector is a string, the s3fs
download when it is `False`, and otherwise the streaming download exactly
when the default boto session finds ambient credentials. -/
def chooseTransfer (kind : PathKind) (profile_name : ProfileName)
    (ambient_credentials : Bool) : TransferCall :=
  if kind = PathKind.url then TransferCall.use_smartopen_es none
  else
    match profile_name with
    | ProfileName.str s => TransferCall.use_smartopen_es (some s)
    | ProfileName.false_ => TransferCall.use_s3fs_es
    | ProfileName.none_ =>
      if ambient_credentials then TransferCall.use_smartopen_es none
      else TransferCall.use_s3fs_es

/-- The environment a remote fetch runs in: whether the default boto session
finds ambient credentials, the temporary staging directory, and the state of
that directory after the archive has been downloaded and extracted. -/
structure RemoteEnv where
  ambient_credentials : Bool
  tmpdir : String
  extracted : ManifestFS
  extracted_data : DataFS
  deriving Repr

/-- Embedding of `read_entityset(path, profile_name, **kwargs)` (lines 177-212): a local
path reads the manifest directly; a URL or S3 path chooses a transfer
strategy, downloads and extracts the archive into a scoped temporary
directory, then reads the manifest from there.  The first component records
which transfer call was made (`none` for local paths). -/
def read_entityset (kind : PathKind) (path : String)
    (profile_name : ProfileName) (localFS : ManifestFS) (localData : DataFS)
    (env : RemoteEnv) (kwargs : Dict) :
    Option TransferCall × (List Event × Except PyError (EntitySet × Description)) :=
  match kind with
  | PathKind.local =>
    (none,
     match read_data_description localFS path with
     | Except.error e => ([], Except.error e)
     | Except.ok data_description =>
       description_to_entityset data_description localData kwargs)
  | _ =>
    let call := chooseTransfer kind profile_name env.ambient_credentials
    (some call,
     match read_data_description env.extracted env.tmpdir with
     | Except.error e => ([], Except.error e)
     | Except.ok data_description =>
       description_to_entityset data_description env.extracted_data kwargs)

/-- True on table-loading and table-registration events. -/
def Event.isEntityEvent : Event → Bool
  | Event.loadTable _ => true
  | Event.registerEntity _ => true
  | _ => false

/-- True on table-registration events. -/
def Event.isRegisterEntity : Event → Bool
  | Event.registerEntity _ => true
  | _ => false

/-- True on relationship-addition events. -/
def Event.isAddRelationshipEvent : Event → Bool
  | Event.addRelationship _ _ => true
  | _ => false

/-- True on the bulk add-last-time-indexes pass. -/
def Event.isLastTimeIndexPass : Event → Bool
  | Event.addLastTimeIndexes _ => true
  | _ => false

/-- No table registration happens after a relationship has been added: in
this trace, every registration event precedes every relationship event. -/
def registersPrecedeRelationships : List Event → Bool
  | [] => true
  | ev :: rest =>
    (if ev.isAddRelationshipEvent then rest.all (fun e => !e.isRegisterEntity)
     else true) &&
      registersPrecedeRelationships rest

/-- The ids of the entities flagged `last_time_index`, in manifest order. -/
def flaggedIds (entities : List (String × EntityDescription)) : List String :=
  (entities.filter (fun kv => kv.2.last_time_index)).map (fun kv => kv.2.id)

/-- Whether an `Except` result is a success. -/
def isOkB {α : Type} : Except PyError α → Bool
  | Except.ok _ => true
  | Except.error _ => false

/-- The in-place pop of an object type tag's `"value"` field, as a pure map. -/
def popTypeTag : TypeTag → TypeTag
  | TypeTag.str name => TypeTag.str name
  | TypeTag.obj fields => TypeTag.obj (dictErase fields "value")

/-- A variable description after `description_to_variable` has processed it. -/
def popVarDescription (vd : VariableDescription) : VariableDescription :=
  { vd with type := popTypeTag vd.type }

/-- An entity description after the entity loop has merged the caller kwargs
into its loading params and reconstructed its variables. -/
def mutatedEntityDescription (kwargs : Dict) (e : EntityDescription) :
    EntityDescription :=
  { mergeEntityParams kwargs e with vars := e.vars.map popVarDescription }

/-- Concrete data used to instantiate the theorems: an index variable. -/
def exVarIndex : VariableDescription :=
  { id := "idx", type := TypeTag.obj [("value", PVal.str "index")], interesting_values := [] }

/-- A latlong variable with an object-form type tag. -/
def exVarLatLong : VariableDescription :=
  { id := "loc", type := TypeTag.obj [("value", PVal.str "latlong")], interesting_values := [] }

/-- A variable whose type tag is a bare string. -/
def exVarBareString : VariableDescription :=
  { id := "cat", type := TypeTag.str "categorical", interesting_values := [] }

/-- A variable whose type tag names no registered type. -/
def exVarMystery : VariableDescription :=
  { id := "m", type := TypeTag.str "mystery", interesting_values := [] }

/-- csv load parameters carrying the keys the csv reader indexes. -/
def exCsvParams : Dict :=
  [("engine", PVal.str "python"), ("compression", PVal.null), ("encoding", PVal.str "utf-8")]

/-- A csv entity with an index column and a latlong column. -/
def exEntity1 : EntityDescription :=
  { id := "e1"
    vars := [exVarIndex, exVarLatLong]
    index := some "idx"
    time_index := none
    secondary_time_index := none
    last_time_index := false
    loading_info :=
      { location := "e1.csv", type := "csv", params := exCsvParams
        dtypes := [("idx", PVal.str "int64"), ("loc", PVal.str "object")] } }

/-- A second csv entity, flagged `last_time_index`. -/
def exEntity2 : EntityDescription :=
  { exEntity1 with
      id := "e2"
      last_time_index := true
      loading_info := { exEntity1.loading_info with location := "e2.csv" } }

/-- A third csv entity, also flagged `last_time_index`. -/
def exEntity3 : EntityDescription :=
  { exEntity1 with
      id := "e3"
      last_time_index := true
      loading_info := { exEntity1.loading_info with location := "e3.csv" } }

/-- Raw file content for `e1.csv`. -/
def exRawFrame1 : DataFrame :=
  { columns := [("idx", [Cell.num 0]), ("loc", [Cell.str "(40.5, -73.9)"])] }

/-- Raw file content for `e2.csv`. -/
def exRawFrame2 : DataFrame :=
  { columns := [("idx", [Cell.num 1]), ("loc", [Cell.str "(1.5, 2)"])] }

/-- Raw file content for `e3.csv`. -/
def exRawFrame3 : DataFrame :=
  { columns := [("idx", [Cell.num 2]), ("loc", [Cell.str "(0, 3.25)"])] }

/-- The data files under the manifest directory. -/
def exDataFS : DataFS :=
  [("/data/e1.csv", exRawFrame1), ("/data/e2.csv", exRawFrame2), ("/data/e3.csv", exRawFrame3)]

/-- A well-formed manifest: two entities, one relationship whose parent
reference names the entity appearing later in iteration order. -/
def exManifest : Description :=
  { id := "es"
    schema_version := "3.0.0"
    entities := [("e1", exEntity1), ("e2", exEntity2)]
    relationships :=
      [{ parent_entity := "e2", parent_variable := "idx"
         child_entity := "e1", child_variable := "idx" }]
    path := some "/data" }

/-- A three-entity manifest with two entities flagged `last_time_index`. -/
def exManifest3 : Description :=
  { exManifest with entities := [("e1", exEntity1), ("e2", exEntity2), ("e3", exEntity3)] }

/-- A manifest whose schema-version tag is incompatible with the reader. -/
def exBadManifest : Description :=
  { exManifest with schema_version := "2.0.0", path := none }

/-- A manifest directory on disk holding the incompatible manifest. -/
def exManifestFS : ManifestFS :=
  { dirs := ["/data"]
    manifests := [("/data/data_description.json", exBadManifest)] }

/-- The csv entity with an unsupported format tag. -/
def exEntityXml : EntityDescription :=
  { exEntity1 with loading_info := { exEntity1.loading_info with type := "xml" } }

/-- The csv entity with a bare-string variable type tag alongside the latlong
column. -/
def exEntityBare : EntityDescription :=
  { exEntity1 with vars := [exVarBareString, exVarLatLong] }

/-- A pickled entity whose latlong column already stores native tuples. -/
def exEntityPickle : EntityDescription :=
  { exEntity1 with
      id := "p1"
      loading_info :=
        { location := "p1.pkl", type := "pickle", params := []
          dtypes := [("idx", PVal.str "int64"), ("loc", PVal.str "object")] } }

/-- Raw (pickled) file content for `p1.pkl`: tuples, not strings. -/
def exRawFramePickle : DataFrame :=
  { columns := [("idx", [Cell.num 0]), ("loc", [Cell.tup [1, 2]])] }

/-- The data files including the pickled table. -/
def exDataFSPickle : DataFS := exDataFS ++ [("/data/p1.pkl", exRawFramePickle)]

/-- Content of `e1.csv` after latlong decoding. -/
def exDecodedFrame1 : DataFrame :=
  { columns := [("idx", [Cell.num 0]),
                ("loc", [Cell.tup [mkRat 81 2, mkRat (-739) 10]])] }

/-- A remote-fetch environment in which ambient credentials are found. -/
def exEnvCreds : RemoteEnv :=
  { ambient_credentials := true
    tmpdir := "/tmp/t"
    extracted := exManifestFS
    extracted_data := [] }

/-- A remote-fetch environment in which no ambient credentials are found. -/
def exEnvNoCreds : RemoteEnv := { exEnvCreds with ambient_credentials := false }

/-- An incompatible schema-version tag makes `description_to_entityset` fail
immediately: no event is emitted and no entity-set is produced. -/
theorem schema_incompatible_stops_reconstruction (d : Description) (fs : DataFS)
    (kwargs : Dict) (h : schemaCompatible d.schema_version = false) :
    description_to_entityset d fs kwargs =
      ([], Except.error (PyError.schemaVersionError d.schema_version)) := by
  unfold description_to_entityset check_schema_version
  rw [h]
  simp

/-- C1: for every manifest whose schema-version tag is incompatible with the
reader, `description_to_entityset` raises the schema-version error with an
empty event trace — no entity table is loaded and no entity-set is
constructed, so no partial entity-set is ever returned. -/
theorem c1_schema_error_before_any_load (d : Description) (fs : DataFS)
    (kwargs : Dict) (h : schemaCompatible d.schema_version = false) :
    description_to_entityset d fs kwargs =
      ([], Except.error (PyError.schemaVersionError d.schema_version)) :=
  schema_incompatible_stops_reconstruction d fs kwargs h

theorem c1_schema_error_before_any_load_witness :
    schemaCompatible exBadManifest.schema_version = false ∧
    description_to_entityset exBadManifest exDataFS [] =
      ([], Except.error (PyError.schemaVersionError exBadManifest.schema_version)) :=
  ⟨by decide, c1_schema_error_before_any_load exBadManifest exDataFS [] (by decide)⟩

/-- C2 counterexample: on a directory whose manifest carries an incompatible
schema-version tag, `read_data_description` succeeds, returning the stamped
manifest instead of failing — so the Manifest Reader itself does not validate
the schema version. -/
theorem c2_reader_skips_validation_counterexample :
    schemaCompatible exBadManifest.schema_version = false ∧
    read_data_description exManifestFS "/data" =
      Except.ok { exBadManifest with path := some "/data" } := by
  constructor
  · decide
  · rfl

/-- C2 (amended): `read_data_description` reads and parses the manifest and
stamps it with the directory path without validating the schema version; the
incompatible-version failure happens in `description_to_entityset`, before
any table is touched. -/
theorem c2_amended_schema_check_deferred (fs : ManifestFS) (path : String)
    (entry : String × Description)
    (hdir : path ∈ fs.dirs)
    (hfile : fs.manifests.find?
      (fun kv => kv.1 = osPathJoin path "data_description.json") = some entry) :
    read_data_description fs path = Except.ok { entry.2 with path := some path } ∧
    ∀ (dfs : DataFS) (kwargs : Dict),
      schemaCompatible entry.2.schema_version = false →
      description_to_entityset { entry.2 with path := some path } dfs kwargs =
        ([], Except.error (PyError.schemaVersionError entry.2.schema_version)) := by
  constructor
  · unfold read_data_description
    rw [if_pos hdir]
    simp only [hfile]
  · intro dfs kwargs h
    exact schema_incompatible_stops_reconstruction _ dfs kwargs h

theorem c2_amended_schema_check_deferred_witness :
    read_data_description exManifestFS "/data" =
      Except.ok { exBadManifest with path := some "/data" } ∧
    description_to_entityset { exBadManifest with path := some "/data" } exDataFS [] =
      ([], Except.error (PyError.schemaVersionError exBadManifest.schema_version)) :=
  ⟨(c2_amended_schema_check_deferred exManifestFS "/data"
      ("/data/data_description.json", exBadManifest) (by decide) (by rfl)).1,
   (c2_amended_schema_check_deferred exManifestFS "/data"
      ("/data/data_description.json", exBadManifest) (by decide) (by rfl)).2
     exDataFS [] (by decide)⟩

/-- A type key that names no known type falls back to the Unknown type. -/
theorem registryGet_unknown (key : PVal) (h : resolvesKnown key = false) :
    registryGet key = VariableType.Unknown := by
  cases key with
  | str s =>
    simp only [resolvesKnown] at h
    cases hl : registryLookup s with
    | none => simp [registryGet, hl]
    | some t => rw [hl] at h; simp at h
  | int n => rfl
  | bool b => rfl
  | null => rfl

/-- C4: a variable description whose type tag (the bare string, or the
object's popped `"value"` field) names no known variable type reconstructs
successfully to the generic Unknown variable type instead of raising. -/
theorem c4_unknown_tag_resolves_to_unknown (vd : VariableDescription)
    (entity : Option String) (typeKey : PVal) (restTag : TypeTag)
    (hkey : typeTagKey vd.type = Except.ok (typeKey, restTag))
    (hunknown : resolvesKnown typeKey = false) :
    ∃ r vd', description_to_variable vd entity = Except.ok (r, vd') ∧
      r.vtype = VariableType.Unknown := by
  unfold description_to_variable
  rw [hkey]
  have hu := registryGet_unknown typeKey hunknown
  cases entity with
  | none =>
    refine ⟨_, _, rfl, ?_⟩
    simp [VariableResult.vtype, hu]
  | some ent =>
    refine ⟨_, _, rfl, ?_⟩
    simp [VariableResult.vtype, hu]

theorem c4_unknown_tag_resolves_to_unknown_witness :
    ∃ r vd', description_to_variable exVarMystery none = Except.ok (r, vd') ∧
      r.vtype = VariableType.Unknown :=
  c4_unknown_tag_resolves_to_unknown exVarMystery none (PVal.str "mystery")
    (TypeTag.str "mystery") (by rfl) (by decide)

/-- C6: an entity whose loading-info format tag is none of csv, parquet or
pickle makes `read_entity_data` raise a ValueError whose message enumerates
the supported format tags, and no dataframe is produced. -/
theorem c6_unsupported_format_lists_formats (description : EntityDescription)
    (path : String) (fs : DataFS)
    (h : description.loading_info.type ∉ FORMATS) :
    read_entity_data description path fs =
      Except.error (PyError.valueError
        "must be one of the following formats: csv, parquet, pickle") := by
  simp only [FORMATS, List.mem_cons, List.not_mem_nil, or_false, not_or] at h
  obtain ⟨hcsv, hparquet, hpickle⟩ := h
  unfold read_entity_data readFormatDispatch
  simp [hcsv, hparquet, hpickle]
  rfl

theorem c6_unsupported_format_lists_formats_witness :
    read_entity_data exEntityXml "/data" exDataFS =
      Except.error (PyError.valueError
        "must be one of the following formats: csv, parquet, pickle") :=
  c6_unsupported_format_lists_formats exEntityXml "/data" exDataFS (by decide)

/-- C8: the transfer-strategy decision table of `read_entityset`.  A URL is
always fetched by the credential-less streaming download; an object-storage
path is fetched by the streaming download with the named profile session when
the selector is a string, by the dedicated unauthenticated storage-client
download when it is `False`, by the streaming download when it is unset and
ambient credentials are found, and by the dedicated unauthenticated
storage-client download when it is unset and none are found. -/
theorem c8_transfer_strategy_decision_table :
    (∀ (path : String) (profile_name : ProfileName) (localFS : ManifestFS)
       (localData : DataFS) (env : RemoteEnv) (kwargs : Dict),
       (read_entityset PathKind.url path profile_name localFS localData env kwargs).1 =
         some (TransferCall.use_smartopen_es none)) ∧
    (∀ (path s : String) (localFS : ManifestFS) (localData : DataFS)
       (env : RemoteEnv) (kwargs : Dict),
       (read_entityset PathKind.s3 path (ProfileName.str s) localFS localData env
           kwargs).1 =
         some (TransferCall.use_smartopen_es (some s))) ∧
    (∀ (path : String) (localFS : ManifestFS) (localData : DataFS)
       (env : RemoteEnv) (kwargs : Dict),
       (read_entityset PathKind.s3 path ProfileName.false_ localFS localData env
           kwargs).1 =
         some TransferCall.use_s3fs_es) ∧
    (∀ (path : String) (localFS : ManifestFS) (localData : DataFS)
       (env : RemoteEnv) (kwargs : Dict),
       env.ambient_credentials = true →
       (read_entityset PathKind.s3 path ProfileName.none_ localFS localData env
           kwargs).1 =
         some (TransferCall.use_smartopen_es none)) ∧
    (∀ (path : String) (localFS : ManifestFS) (localData : DataFS)
       (env : RemoteEnv) (kwargs : Dict),
       env.ambient_credentials = false →
       (read_entityset PathKind.s3 path ProfileName.none_ localFS localData env
           kwargs).1 =
         some TransferCall.use_s3fs_es) := by
  refine ⟨?_, ?_, ?_, ?_, ?_⟩ <;> intros <;> simp_all [read_entityset, chooseTransfer]

theorem c8_transfer_strategy_decision_table_witness :
    (read_entityset PathKind.s3 "s3://bucket/es.tar" ProfileName.none_ exManifestFS
        exDataFS exEnvCreds []).1 = some (TransferCall.use_smartopen_es none) ∧
    (read_entityset PathKind.s3 "s3://bucket/es.tar" ProfileName.none_ exManifestFS
        exDataFS exEnvNoCreds []).1 = some TransferCall.use_s3fs_es :=
  ⟨c8_transfer_strategy_decision_table.2.2.2.1 "s3://bucket/es.tar" exManifestFS
     exDataFS exEnvCreds [] (by rfl),
   c8_transfer_strategy_decision_table.2.2.2.2 "s3://bucket/es.tar" exManifestFS
     exDataFS exEnvNoCreds [] (by rfl)⟩

/-- When some variable's type tag is a bare string, the latlong scan fails:
with the TypeError from indexing a string by `"value"`, or with the KeyError
of an earlier object tag that lacks a `"value"` field. -/
theorem latlongScan_fails_on_bare_string (l : List VariableDescription)
    (hstr : ∃ vd ∈ l, ∃ s, vd.type = TypeTag.str s) :
    ∃ e, latlongScan l = Except.error e ∧
      (e = PyError.typeError "string indices must be integers" ∨
       e = PyError.keyError "value") := by
  induction l with
  | nil =>
    obtain ⟨vd, hm, _⟩ := hstr
    exact absurd hm (List.not_mem_nil vd)
  | cons vd rest ih =>
    cases htag : vd.type with
    | str s =>
      exact ⟨PyError.typeError "string indices must be integers",
        by simp [latlongScan, htag], Or.inl rfl⟩
    | obj fields =>
      cases hg : dictGet fields "value" with
      | none =>
        refine ⟨PyError.keyError "value", ?_, Or.inr rfl⟩
        simp [latlongScan, htag, dictIndex, hg]
      | some v =>
        have hrest : ∃ vd' ∈ rest, ∃ s, vd'.type = TypeTag.str s := by
          obtain ⟨vd', hm, s, hs⟩ := hstr
          rcases List.mem_cons.mp hm with rfl | h2
          · rw [htag] at hs; exact TypeTag.noConfusion hs
          · exact ⟨vd', h2, s, hs⟩
        obtain ⟨e, he, hcase⟩ := ih hrest
        refine ⟨e, ?_, hcase⟩
        simp [latlongScan, htag, dictIndex, hg, he]

/-- C10: for a csv- or parquet-format entity whose raw file read succeeds, a
variable whose type tag is a bare string (a form `description_to_variable`
accepts) makes `read_entity_data` raise a type/lookup error instead of
returning a dataframe. -/
theorem c10_bare_string_tag_breaks_scan (description : EntityDescription)
    (path : String) (fs : DataFS) (raw : DataFrame)
    (hfmt : description.loading_info.type = "csv" ∨
      description.loading_info.type = "parquet")
    (hraw : readFormatDispatch description path fs = Except.ok raw)
    (hstr : ∃ vd ∈ description.vars, ∃ s, vd.type = TypeTag.str s) :
    ∃ e, read_entity_data description path fs = Except.error e ∧
      (e = PyError.typeError "string indices must be integers" ∨
       e = PyError.keyError "value") := by
  obtain ⟨e, he, hcase⟩ := latlongScan_fails_on_bare_string description.vars hstr
  refine ⟨e, ?_, hcase⟩
  rcases hfmt with h | h <;> simp [read_entity_data, hraw, he, h]

theorem c10_bare_string_tag_breaks_scan_witness :
    ∃ e, read_entity_data exEntityBare "/data" exDataFS = Except.error e ∧
      (e = PyError.typeError "string indices must be integers" ∨
       e = PyError.keyError "value") :=
  c10_bare_string_tag_breaks_scan exEntityBare "/data" exDataFS exRawFrame1
    (Or.inl rfl) (by rfl)
    ⟨exVarBareString, by decide, "categorical", rfl⟩

/-- A successful format dispatch returns exactly the raw content the pandas
reader found at the joined file path. -/
theorem readFormatDispatch_ok_pdRead (description : EntityDescription)
    (path : String) (fs : DataFS) (raw : DataFrame)
    (h : readFormatDispatch description path fs = Except.ok raw) :
    pdReadFile fs (osPathJoin path description.loading_info.location) =
      Except.ok raw := by
  unfold readFormatDispatch at h
  dsimp only at h
  repeat' split at h
  all_goals first | exact h | exact Except.noConfusion h

/-- The column-wise latlong decode relates input and output columns one to
one: names are preserved, the cells of every column with the decoded name are
mapped through `parse_latlong`, and every other column is unchanged. -/
theorem applyLatlongCols_spec (c : String)
    (cols cols' : List (String × List Cell))
    (h : applyLatlongCols c cols = Except.ok cols') :
    List.Forall₂ (fun kv kv' : String × List Cell =>
      kv'.1 = kv.1 ∧
      (kv.1 = c → exceptMap parse_latlong kv.2 = Except.ok kv'.2) ∧
      (kv.1 ≠ c → kv' = kv)) cols cols' := by
  induction cols generalizing cols' with
  | nil =>
    unfold applyLatlongCols at h
    obtain rfl : ([] : List (String × List Cell)) = cols' := by
      exact (Except.ok.injEq _ _).mp h
    exact List.Forall₂.nil
  | cons kv rest ih =>
    unfold applyLatlongCols at h
    dsimp only at h
    by_cases hc : kv.1 = c
    · rw [if_pos hc] at h
      cases hm : exceptMap parse_latlong kv.2 with
      | error e => rw [hm] at h; exact Except.noConfusion h
      | ok cells =>
        rw [hm] at h
        dsimp only at h
        cases hr : applyLatlongCols c rest with
        | error e => rw [hr] at h; exact Except.noConfusion h
        | ok rest' =>
          rw [hr] at h
          dsimp only at h
          obtain rfl : (kv.1, cells) :: rest' = cols' := (Except.ok.injEq _ _).mp h
          exact List.Forall₂.cons
            ⟨rfl, fun _ => hm, fun hne => absurd hc hne⟩ (ih rest' hr)
    · rw [if_neg hc] at h
      cases hr : applyLatlongCols c rest with
      | error e => rw [hr] at h; exact Except.noConfusion h
      | ok rest' =>
        rw [hr] at h
        dsimp only at h
        obtain rfl : kv :: rest' = cols' := (Except.ok.injEq _ _).mp h
        exact List.Forall₂.cons
          ⟨rfl, fun hceq => absurd hceq hc, fun _ => rfl⟩ (ih rest' hr)

/-- C5: for csv- and parquet-format tables, a successful `read_entity_data`
is exactly the raw file content piped through the dtype cast and the latlong
decode of the scanned columns; a decoded column has each cell mapped through
`parse_latlong` and every other column is untouched; the text
`"(40.5, -73.9)"` decodes to the tuple `(40.5, -73.9)`; and pickled data
skips the decoding step entirely. -/
theorem c5_latlong_decoding :
    (∀ (description : EntityDescription) (path : String) (fs : DataFS)
       (df : DataFrame),
       (description.loading_info.type = "csv" ∨
         description.loading_info.type = "parquet") →
       read_entity_data description path fs = Except.ok df →
       ∃ raw latlongs,
         pdReadFile fs (osPathJoin path description.loading_info.location) =
           Except.ok raw ∧
         latlongScan description.vars = Except.ok latlongs ∧
         applyLatlongs (raw.astype description.loading_info.dtypes) latlongs =
           Except.ok df) ∧
    (∀ (df : DataFrame) (c : String) (df' : DataFrame),
       applyLatlong df c = Except.ok df' →
       List.Forall₂ (fun kv kv' : String × List Cell =>
         kv'.1 = kv.1 ∧
         (kv.1 = c → exceptMap parse_latlong kv.2 = Except.ok kv'.2) ∧
         (kv.1 ≠ c → kv' = kv)) df.columns df'.columns) ∧
    parse_latlong (Cell.str "(40.5, -73.9)") =
      Except.ok (Cell.tup [40.5, -73.9]) ∧
    (∀ (description : EntityDescription) (path : String) (fs : DataFS)
       (raw : DataFrame),
       description.loading_info.type = "pickle" →
       readFormatDispatch description path fs = Except.ok raw →
       read_entity_data description path fs =
         Except.ok (raw.astype description.loading_info.dtypes)) := by
  refine ⟨?_, ?_, ?_, ?_⟩
  · intro description path fs df hfmt h
    cases hdisp : readFormatDispatch description path fs with
    | error e =>
      rw [read_entity_data.eq_def, hdisp] at h
      exact Except.noConfusion h
    | ok raw =>
      refine ⟨raw, ?_⟩
      unfold read_entity_data at h
      rw [hdisp] at h
      dsimp only at h
      rw [if_pos (Or.symm hfmt)] at h
      cases hscan : latlongScan description.vars with
      | error e => rw [hscan] at h; exact Except.noConfusion h
      | ok latlongs =>
        rw [hscan] at h
        dsimp only at h
        exact ⟨latlongs, readFormatDispatch_ok_pdRead description path fs raw hdisp,
          rfl, h⟩
  · intro df c df' h
    unfold applyLatlong at h
    by_cases hmem : df.columns.any (fun kv => kv.1 = c)
    · rw [if_pos hmem] at h
      cases hcols : applyLatlongCols c df.columns with
      | error e => rw [hcols] at h; exact Except.noConfusion h
      | ok cols =>
        rw [hcols] at h
        dsimp only at h
        obtain rfl : DataFrame.mk cols = df' := (Except.ok.injEq _ _).mp h
        exact applyLatlongCols_spec c df.columns cols hcols
    · rw [if_neg hmem] at h
      exact Except.noConfusion h
  · have h : parse_latlong (Cell.str "(40.5, -73.9)") =
        Except.ok (Cell.tup [mkRat 81 2, mkRat (-739) 10]) := by decide
    rw [h]
    norm_num [Rat.mkRat_eq_div]
  · intro description path fs raw hfmt hdisp
    unfold read_entity_data
    rw [hdisp]
    dsimp only
    rw [if_neg (by rw [hfmt]; decide)]

theorem c5_latlong_decoding_witness :
    (∃ raw latlongs,
       pdReadFile exDataFS (osPathJoin "/data" exEntity1.loading_info.location) =
         Except.ok raw ∧
       latlongScan exEntity1.vars = Except.ok latlongs ∧
       applyLatlongs (raw.astype exEntity1.loading_info.dtypes) latlongs =
         Except.ok exDecodedFrame1) ∧
    read_entity_data exEntityPickle "/data" exDataFSPickle =
      Except.ok (exRawFramePickle.astype exEntityPickle.loading_info.dtypes) :=
  ⟨c5_latlong_decoding.1 exEntity1 "/data" exDataFS exDecodedFrame1 (Or.inl rfl)
     (by decide),
   c5_latlong_decoding.2.2.2 exEntityPickle "/data" exDataFSPickle exRawFramePickle
     rfl (by decide)⟩

/-- Running `description_to_variable` mutates its input exactly by popping the
object tag's `"value"` field. -/
theorem description_to_variable_mutation (vd : VariableDescription)
    (entity : Option String) (r : VariableResult) (vd' : VariableDescription)
    (h : description_to_variable vd entity = Except.ok (r, vd')) :
    vd' = popVarDescription vd := by
  unfold description_to_variable at h
  cases htag : vd.type with
  | str name =>
    rw [htag] at h
    dsimp only [typeTagKey] at h
    cases entity with
    | none =>
      simp only [Except.ok.injEq, Prod.mk.injEq] at h
      simp [← h.2, popVarDescription, popTypeTag, htag]
    | some ent =>
      simp only [Except.ok.injEq, Prod.mk.injEq] at h
      simp [← h.2, popVarDescription, popTypeTag, htag]
  | obj fields =>
    rw [htag] at h
    dsimp only [typeTagKey] at h
    cases hg : dictGet fields "value" with
    | none =>
      rw [dictPop, hg] at h
      exact Except.noConfusion h
    | some v =>
      rw [dictPop, hg] at h
      dsimp only at h
      cases entity with
      | none =>
        simp only [Except.ok.injEq, Prod.mk.injEq] at h
        simp [← h.2, popVarDescription, popTypeTag, htag]
      | some ent =>
        simp only [Except.ok.injEq, Prod.mk.injEq] at h
        simp [← h.2, popVarDescription, popTypeTag, htag]

/-- The dict comprehension pops every object tag's `"value"` field. -/
theorem variablesToTypes_mutation (l : List VariableDescription)
    (vt : List (String × VariableResult)) (l' : List VariableDescription)
    (h : variablesToTypes l = Except.ok (vt, l')) :
    l' = l.map popVarDescription := by
  induction l generalizing vt l' with
  | nil =>
    unfold variablesToTypes at h
    simp only [Except.ok.injEq, Prod.mk.injEq] at h
    simp [← h.2]
  | cons vd rest ih =>
    unfold variablesToTypes at h
    cases hv : description_to_variable vd none with
    | error e => rw [hv] at h; exact Except.noConfusion h
    | ok p =>
      obtain ⟨v, vd'⟩ := p
      rw [hv] at h
      dsimp only at h
      cases hr : variablesToTypes rest with
      | error e => rw [hr] at h; exact Except.noConfusion h
      | ok q =>
        obtain ⟨tail, rest'⟩ := q
        rw [hr] at h
        dsimp only at h
        simp only [Except.ok.injEq, Prod.mk.injEq] at h
        rw [← h.2]
        rw [List.map_cons, ← description_to_variable_mutation vd none v vd' hv,
          ← ih tail rest' hr]

/-- All events a single entity reconstruction emits are entity events. -/
theorem description_to_entity_events (description : EntityDescription)
    (entityset : EntitySet) (path : Option String) (fs : DataFS) :
    ∀ ev ∈ (description_to_entity description entityset path fs).1,
      ev.isEntityEvent = true := by
  intro ev hev
  unfold description_to_entity at hev
  cases path with
  | none =>
    dsimp only at hev
    cases hv : variablesToTypes description.vars with
    | error e =>
      rw [hv] at hev
      dsimp only at hev
      exact absurd hev (List.not_mem_nil ev)
    | ok p =>
      obtain ⟨vt, vars'⟩ := p
      rw [hv] at hev
      dsimp only at hev
      rw [List.mem_singleton.mp hev]
      rfl
  | some p =>
    dsimp only at hev
    cases hd : read_entity_data description p fs with
    | error e =>
      rw [hd] at hev
      dsimp only at hev
      exact absurd hev (List.not_mem_nil ev)
    | ok dataframe =>
      rw [hd] at hev
      dsimp only at hev
      cases hv : variablesToTypes description.vars with
      | error e =>
        rw [hv] at hev
        dsimp only at hev
        rw [List.mem_singleton.mp hev]
        rfl
      | ok q =>
        obtain ⟨vt, vars'⟩ := q
        rw [hv] at hev
        dsimp only at hev
        rcases List.mem_cons.mp hev with rfl | hev2
        · rfl
        · rw [List.mem_singleton.mp hev2]
          rfl

/-- A successful entity reconstruction adds exactly one entity, leaves the
relationships alone, and mutates the description exactly by the variable-tag
pops. -/
theorem description_to_entity_ok (description : EntityDescription)
    (entityset : EntitySet) (path : Option String) (fs : DataFS)
    (es' : EntitySet) (description' : EntityDescription)
    (h : (description_to_entity description entityset path fs).2 =
      Except.ok (es', description')) :
    es'.entities.length = entityset.entities.length + 1 ∧
    es'.relationships = entityset.relationships ∧
    description' =
      { description with vars := description.vars.map popVarDescription } := by
  unfold description_to_entity at h
  cases path with
  | none =>
    dsimp only at h
    cases hv : variablesToTypes description.vars with
    | error e => rw [hv] at h; exact Except.noConfusion h
    | ok p =>
      obtain ⟨vt, vars'⟩ := p
      rw [hv] at h
      dsimp only at h
      simp only [Except.ok.injEq, Prod.mk.injEq] at h
      refine ⟨?_, ?_, ?_⟩
      · rw [← h.1]; simp [EntitySet.entity_from_dataframe]
      · rw [← h.1]; rfl
      · rw [← h.2, ← variablesToTypes_mutation description.vars vt vars' hv]
  | some p =>
    dsimp only at h
    cases hd : read_entity_data description p fs with
    | error e => rw [hd] at h; exact Except.noConfusion h
    | ok dataframe =>
      rw [hd] at h
      dsimp only at h
      cases hv : variablesToTypes description.vars with
      | error e => rw [hv] at h; exact Except.noConfusion h
      | ok q =>
        obtain ⟨vt, vars'⟩ := q
        rw [hv] at h
        dsimp only at h
        simp only [Except.ok.injEq, Prod.mk.injEq] at h
        refine ⟨?_, ?_, ?_⟩
        · rw [← h.1]; simp [EntitySet.entity_from_dataframe]
        · rw [← h.1]; rfl
        · rw [← h.2, ← variablesToTypes_mutation description.vars vt vars' hv]

/-- All events the entity loop emits are entity events. -/
theorem processEntities_events (fs : DataFS) (path : Option String)
    (kwargs : Dict) (l : List (String × EntityDescription)) (es : EntitySet) :
    ∀ ev ∈ (processEntities fs path kwargs l es).1, ev.isEntityEvent = true := by
  induction l generalizing es with
  | nil => intro ev hev; exact absurd hev (List.not_mem_nil ev)
  | cons kv rest ih =>
    obtain ⟨key, entity0⟩ := kv
    intro ev hev
    unfold processEntities at hev
    dsimp only at hev
    cases hd : description_to_entity (mergeEntityParams kwargs entity0) es path fs with
    | mk evs res =>
      rw [hd] at hev
      cases res with
      | error e =>
        dsimp only at hev
        exact description_to_entity_events (mergeEntityParams kwargs entity0)
          es path fs ev (by rw [hd]; exact hev)
      | ok pr =>
        obtain ⟨es1, entity'⟩ := pr
        dsimp only at hev
        cases hrec : processEntities fs path kwargs rest es1 with
        | mk evs2 res2 =>
          rw [hrec] at hev
          cases res2 with
          | error e =>
            dsimp only at hev
            rcases List.mem_append.mp hev with h1 | h2
            · exact description_to_entity_events (mergeEntityParams kwargs entity0)
                es path fs ev (by rw [hd]; exact h1)
            · exact ih es1 ev (by rw [hrec]; exact h2)
          | ok triple =>
            obtain ⟨es2, rest', flaggedRest⟩ := triple
            dsimp only at hev
            rcases List.mem_append.mp hev with h1 | h2
            · exact description_to_entity_events (mergeEntityParams kwargs entity0)
                es path fs ev (by rw [hd]; exact h1)
            · exact ih es1 ev (by rw [hrec]; exact h2)

/-- All events the relationship loop emits are relationship events. -/
theorem processRelationships_events (rds : List RelationshipDescription)
    (es : EntitySet) :
    ∀ ev ∈ (processRelationships rds es).1, ev.isAddRelationshipEvent = true := by
  induction rds generalizing es with
  | nil => intro ev hev; exact absurd hev (List.not_mem_nil ev)
  | cons rd rest ih =>
    intro ev hev
    unfold processRelationships at hev
    cases hr : relationship_from_dictionary rd es with
    | error e =>
      rw [hr] at hev
      dsimp only at hev
      exact absurd hev (List.not_mem_nil ev)
    | ok r =>
      rw [hr] at hev
      dsimp only at hev
      rcases List.mem_cons.mp hev with rfl | h2
      · rfl
      · exact ih (es.add_relationship r) ev h2

/-- A successful entity loop registers one entity per description, leaves the
relationships alone, collects exactly the flagged ids in manifest order, and
mutates each description by the param merge and the variable-tag pops. -/
theorem processEntities_ok (fs : DataFS) (path : Option String) (kwargs : Dict)
    (l : List (String × EntityDescription)) (es es' : EntitySet)
    (l' : List (String × EntityDescription)) (flg : List String)
    (h : (processEntities fs path kwargs l es).2 = Except.ok (es', l', flg)) :
    es'.entities.length = es.entities.length + l.length ∧
    es'.relationships = es.relationships ∧
    flg = flaggedIds l ∧
    l' = l.map (fun kv => (kv.1, mutatedEntityDescription kwargs kv.2)) := by
  induction l generalizing es es' l' flg with
  | nil =>
    unfold processEntities at h
    dsimp only at h
    simp only [Except.ok.injEq, Prod.mk.injEq] at h
    obtain ⟨h1, h2, h3⟩ := h
    refine ⟨?_, ?_, ?_, ?_⟩
    · rw [← h1]; simp
    · rw [← h1]
    · rw [← h3]; rfl
    · rw [← h2]; rfl
  | cons kv rest ih =>
    obtain ⟨key, entity0⟩ := kv
    unfold processEntities at h
    dsimp only at h
    cases hd : description_to_entity (mergeEntityParams kwargs entity0) es path fs with
    | mk evs res =>
      rw [hd] at h
      cases res with
      | error e => dsimp only at h; exact Except.noConfusion h
      | ok pr =>
        obtain ⟨es1, entity'⟩ := pr
        dsimp only at h
        cases hrec : processEntities fs path kwargs rest es1 with
        | mk evs2 res2 =>
          rw [hrec] at h
          cases res2 with
          | error e => dsimp only at h; exact Except.noConfusion h
          | ok triple =>
            obtain ⟨es2, rest', flaggedRest⟩ := triple
            dsimp only at h
            simp only [Except.ok.injEq, Prod.mk.injEq] at h
            obtain ⟨h1, h2, h3⟩ := h
            obtain ⟨hlen, hrel, hmut⟩ :=
              description_to_entity_ok (mergeEntityParams kwargs entity0) es path fs
                es1 entity' (by rw [hd])
            obtain ⟨ihlen, ihrel, ihflg, ihmap⟩ :=
              ih es1 es2 rest' flaggedRest (by rw [hrec])
            refine ⟨?_, ?_, ?_, ?_⟩
            · rw [← h1]; simp only [List.length_cons]; omega
            · rw [← h1, ihrel, hrel]
            · rw [← h3, ihflg]
              cases hlast : entity0.last_time_index with
              | true => simp [flaggedIds, mergeEntityParams, hlast]
              | false => simp [flaggedIds, mergeEntityParams, hlast]
            · rw [← h2, ihmap, hmut]
              simp [mutatedEntityDescription, mergeEntityParams]

/-- A successful relationship loop adds one relationship per description and
leaves the entities alone. -/
theorem processRelationships_ok (rds : List RelationshipDescription)
    (es es' : EntitySet)
    (h : (processRelationships rds es).2 = Except.ok es') :
    es'.relationships.length = es.relationships.length + rds.length ∧
    es'.entities = es.entities := by
  induction rds generalizing es with
  | nil =>
    unfold processRelationships at h
    dsimp only at h
    simp only [Except.ok.injEq] at h
    rw [← h]
    exact ⟨rfl, rfl⟩
  | cons rd rest ih =>
    unfold processRelationships at h
    cases hr : relationship_from_dictionary rd es with
    | error e => rw [hr] at h; dsimp only at h; exact Except.noConfusion h
    | ok r =>
      rw [hr] at h
      dsimp only at h
      obtain ⟨h1, h2⟩ := ih (es.add_relationship r) h
      constructor
      · rw [h1]; simp [EntitySet.add_relationship]; omega
      · rw [h2]; rfl

/-- Decomposition of a successful `description_to_entityset` run: the entity
loop succeeds, then the relationship loop succeeds, the entity-set is the one
the relationship loop produced, the returned description carries the mutated
entities, and the trace is the entity events, then the relationship events,
then the add-last-time-indexes pass exactly when some entity was flagged. -/
theorem description_to_entityset_ok_decomp (d : Description) (fs : DataFS)
    (kwargs : Dict) (es : EntitySet) (d' : Description)
    (h : (description_to_entityset d fs kwargs).2 = Except.ok (es, d')) :
    ∃ evs es1 entities' flg evs2 es2,
      processEntities fs d.path kwargs d.entities
          { id := d.id, entities := [], relationships := [] } =
        (evs, Except.ok (es1, entities', flg)) ∧
      processRelationships d.relationships es1 = (evs2, Except.ok es2) ∧
      es = es2 ∧
      d' = { d with entities := entities' } ∧
      (description_to_entityset d fs kwargs).1 =
        evs ++ evs2 ++
          (if flg.length ≠ 0 then [Event.addLastTimeIndexes flg] else []) := by
  cases hcs : check_schema_version d with
  | error e =>
    have hx : (description_to_entityset d fs kwargs).2 = Except.error e := by
      unfold description_to_entityset
      rw [hcs]
    rw [hx] at h
    exact Except.noConfusion h
  | ok u =>
    cases hpe : processEntities fs d.path kwargs d.entities
        { id := d.id, entities := [], relationships := [] } with
    | mk evs res =>
      cases res with
      | error e =>
        have hx : (description_to_entityset d fs kwargs).2 = Except.error e := by
          unfold description_to_entityset
          rw [hcs]
          dsimp only
          rw [hpe]
        rw [hx] at h
        exact Except.noConfusion h
      | ok triple =>
        obtain ⟨es1, entities', flg⟩ := triple
        cases hpr : processRelationships d.relationships es1 with
        | mk evs2 res2 =>
          cases res2 with
          | error e =>
            have hx : (description_to_entityset d fs kwargs).2 = Except.error e := by
              unfold description_to_entityset
              rw [hcs]
              dsimp only
              rw [hpe]
              dsimp only
              rw [hpr]
            rw [hx] at h
            exact Except.noConfusion h
          | ok es2 =>
            have hx : description_to_entityset d fs kwargs =
                (evs ++ evs2 ++
                   (if flg.length ≠ 0 then [Event.addLastTimeIndexes flg] else []),
                 Except.ok (es2, { d with entities := entities' })) := by
              unfold description_to_entityset
              rw [hcs]
              dsimp only
              rw [hpe]
              dsimp only
              rw [hpr]
              dsimp only
              by_cases hflg : flg.length ≠ 0
              · rw [if_pos hflg, if_pos hflg]
              · rw [if_neg hflg, if_neg hflg, List.append_nil]
            rw [hx] at h
            dsimp only at h
            simp only [Except.ok.injEq, Prod.mk.injEq] at h
            exact ⟨evs, es1, entities', flg, evs2, es2, rfl, hpr, h.1.symm,
              h.2.symm, by rw [hx]⟩

/-- A trace without registration events satisfies the ordering trivially. -/
theorem registersPrecedeRelationships_of_no_register (b : List Event)
    (hb : ∀ ev ∈ b, ev.isRegisterEntity = false) :
    registersPrecedeRelationships b = true := by
  induction b with
  | nil => rfl
  | cons ev rest ih =>
    have hrest : ∀ e ∈ rest, e.isRegisterEntity = false :=
      fun e he => hb e (List.mem_cons_of_mem ev he)
    unfold registersPrecedeRelationships
    rw [Bool.and_eq_true]
    refine ⟨?_, ih hrest⟩
    cases hadd : ev.isAddRelationshipEvent with
    | false => rw [if_neg Bool.false_ne_true]
    | true =>
      rw [if_pos rfl]
      rw [List.all_eq_true]
      intro e he
      rw [hrest e he]
      rfl

/-- A trace of relationship-free events followed by a registration-free tail
satisfies the ordering. -/
theorem registersPrecedeRelationships_append (a b : List Event)
    (ha : ∀ ev ∈ a, ev.isAddRelationshipEvent = false)
    (hb : ∀ ev ∈ b, ev.isRegisterEntity = false) :
    registersPrecedeRelationships (a ++ b) = true := by
  induction a with
  | nil => simpa using registersPrecedeRelationships_of_no_register b hb
  | cons ev rest ih =>
    have hrest : ∀ e ∈ rest, e.isAddRelationshipEvent = false :=
      fun e he => ha e (List.mem_cons_of_mem ev he)
    have hev : ev.isAddRelationshipEvent = false := ha ev (List.mem_cons_self ev rest)
    rw [List.cons_append]
    unfold registersPrecedeRelationships
    rw [Bool.and_eq_true]
    exact ⟨by rw [if_neg (by rw [hev]; exact Bool.false_ne_true)], ih hrest⟩

/-- C3: a manifest that reconstructs without error yields an entity-set with
exactly one table per entity description and exactly one relationship per
relationship description, and in the event trace every table registration
precedes every relationship addition — so a relationship referencing an
entity that appears later in the manifest's entity iteration order still
resolves. -/
theorem c3_counts_and_ordering (d : Description) (fs : DataFS) (kwargs : Dict)
    (h : isOkB (description_to_entityset d fs kwargs).2 = true) :
    ∃ es d', (description_to_entityset d fs kwargs).2 = Except.ok (es, d') ∧
      es.entities.length = d.entities.length ∧
      es.relationships.length = d.relationships.length ∧
      registersPrecedeRelationships (description_to_entityset d fs kwargs).1 = true := by
  cases hres : (description_to_entityset d fs kwargs).2 with
  | error e => rw [hres] at h; simp [isOkB] at h
  | ok p =>
    obtain ⟨es, d'⟩ := p
    obtain ⟨evs, es1, entities', flg, evs2, es2, hpe, hpr, hes, hd', htr⟩ :=
      description_to_entityset_ok_decomp d fs kwargs es d' hres
    obtain ⟨hlen, hrel, hflg, hmap⟩ :=
      processEntities_ok fs d.path kwargs d.entities _ es1 entities' flg (by rw [hpe])
    obtain ⟨hrlen, hrent⟩ :=
      processRelationships_ok d.relationships es1 es2 (by rw [hpr])
    refine ⟨es, d', rfl, ?_, ?_, ?_⟩
    · rw [hes, hrent, hlen]
      simp
    · rw [hes, hrlen, hrel]
      simp
    · rw [htr, List.append_assoc]
      apply registersPrecedeRelationships_append
      · intro ev hev
        have hent := processEntities_events fs d.path kwargs d.entities
          { id := d.id, entities := [], relationships := [] } ev
          (by rw [hpe]; exact hev)
        cases ev <;> simp_all [Event.isEntityEvent, Event.isAddRelationshipEvent]
      · intro ev hev
        rcases List.mem_append.mp hev with h1 | h2
        · have hrelev := processRelationships_events d.relationships es1 ev
            (by rw [hpr]; exact h1)
          cases ev <;> simp_all [Event.isAddRelationshipEvent, Event.isRegisterEntity]
        · by_cases hflg2 : flg.length ≠ 0
          · rw [if_pos hflg2] at h2
            rw [List.mem_singleton.mp h2]
            rfl
          · rw [if_neg hflg2] at h2
            exact absurd h2 (List.not_mem_nil ev)

theorem c3_counts_and_ordering_witness :
    ∃ es d', (description_to_entityset exManifest exDataFS []).2 =
        Except.ok (es, d') ∧
      es.entities.length = exManifest.entities.length ∧
      es.relationships.length = exManifest.relationships.length ∧
      registersPrecedeRelationships
        (description_to_entityset exManifest exDataFS []).1 = true :=
  c3_counts_and_ordering exManifest exDataFS [] (by decide)

/-- C7: in a successful reconstruction, the add-last-time-indexes events of
the trace are exactly one pass over the flagged entity ids in manifest order
when at least one entity is flagged, and there is no such event when none
is. -/
theorem c7_last_time_index_pass (d : Description) (fs : DataFS) (kwargs : Dict)
    (h : isOkB (description_to_entityset d fs kwargs).2 = true) :
    (description_to_entityset d fs kwargs).1.filter
        (fun ev => ev.isLastTimeIndexPass) =
      (if flaggedIds d.entities = [] then []
       else [Event.addLastTimeIndexes (flaggedIds d.entities)]) := by
  cases hres : (description_to_entityset d fs kwargs).2 with
  | error e => rw [hres] at h; simp [isOkB] at h
  | ok p =>
    obtain ⟨es, d'⟩ := p
    obtain ⟨evs, es1, entities', flg, evs2, es2, hpe, hpr, hes, hd', htr⟩ :=
      description_to_entityset_ok_decomp d fs kwargs es d' hres
    obtain ⟨hlen, hrel, hflg, hmap⟩ :=
      processEntities_ok fs d.path kwargs d.entities _ es1 entities' flg (by rw [hpe])
    have hevs : evs.filter (fun ev => ev.isLastTimeIndexPass) = [] := by
      rw [List.filter_eq_nil_iff]
      intro ev hev
      have hent := processEntities_events fs d.path kwargs d.entities
        { id := d.id, entities := [], relationships := [] } ev
        (by rw [hpe]; exact hev)
      cases ev <;> simp_all [Event.isEntityEvent, Event.isLastTimeIndexPass]
    have hevs2 : evs2.filter (fun ev => ev.isLastTimeIndexPass) = [] := by
      rw [List.filter_eq_nil_iff]
      intro ev hev
      have hrelev := processRelationships_events d.relationships es1 ev
        (by rw [hpr]; exact hev)
      cases ev <;> simp_all [Event.isAddRelationshipEvent, Event.isLastTimeIndexPass]
    rw [htr, List.filter_append, List.filter_append, hevs, hevs2]
    by_cases hflg2 : flg.length ≠ 0
    · rw [if_pos hflg2]
      have hne : flaggedIds d.entities ≠ [] := by
        rw [← hflg]
        intro hnil
        rw [hnil] at hflg2
        exact hflg2 rfl
      rw [if_neg hne, hflg]
      rfl
    · rw [if_neg hflg2]
      have hnil : flaggedIds d.entities = [] := by
        rw [← hflg]
        rcases List.length_eq_zero.mp (by omega : flg.length = 0) with h0
        exact h0
      rw [if_pos hnil]
      rfl

theorem c7_last_time_index_pass_witness :
    (description_to_entityset exManifest3 exDataFS []).1.filter
        (fun ev => ev.isLastTimeIndexPass) =
      (if flaggedIds exManifest3.entities = [] then []
       else [Event.addLastTimeIndexes (flaggedIds exManifest3.entities)]) :=
  c7_last_time_index_pass exManifest3 exDataFS [] (by decide)

/-- C9 counterexample: the description is not consumed immutably: processing
a latlong variable description pops the `"value"` field out of its type tag,
and a full reconstruction returns a description differing from its input. -/
theorem c9_description_mutated_counterexample :
    description_to_variable exVarLatLong none =
      Except.ok (VariableResult.cls VariableType.LatLong,
        { exVarLatLong with type := TypeTag.obj [] }) ∧
    { exVarLatLong with type := TypeTag.obj [] } ≠ exVarLatLong ∧
    (description_to_entityset exManifest exDataFS []).2.toOption.map Prod.snd ≠
      some exManifest := by
  refine ⟨by decide, by decide, by decide⟩

/-- C9 (amended): the reconstruction mutates the parsed description in place
in exactly two ways — `description_to_variable` pops the `"value"` field out
of each object-form type tag, and the entity loop merges the caller kwargs
into each entity's loading params; every other field of the description is
unchanged. -/
theorem c9_amended_mutation_exact :
    (∀ (vd : VariableDescription) (entity : Option String) (r : VariableResult)
       (vd' : VariableDescription),
       description_to_variable vd entity = Except.ok (r, vd') →
       vd' = popVarDescription vd) ∧
    (∀ (d : Description) (fs : DataFS) (kwargs : Dict),
       isOkB (description_to_entityset d fs kwargs).2 = true →
       ∃ es d', (description_to_entityset d fs kwargs).2 = Except.ok (es, d') ∧
         d' = { d with entities :=
           d.entities.map (fun kv => (kv.1, mutatedEntityDescription kwargs kv.2)) }) := by
  constructor
  · exact description_to_variable_mutation
  · intro d fs kwargs h
    cases hres : (description_to_entityset d fs kwargs).2 with
    | error e => rw [hres] at h; simp [isOkB] at h
    | ok p =>
      obtain ⟨es, d'⟩ := p
      obtain ⟨evs, es1, entities', flg, evs2, es2, hpe, hpr, hes, hd', htr⟩ :=
        description_to_entityset_ok_decomp d fs kwargs es d' hres
      obtain ⟨-, -, -, hmap⟩ :=
        processEntities_ok fs d.path kwargs d.entities _ es1 entities' flg (by rw [hpe])
      exact ⟨es, d', rfl, by rw [hd', hmap]⟩

theorem c9_amended_mutation_exact_witness :
    { exVarIndex with type := TypeTag.obj [] } = popVarDescription exVarIndex ∧
    ∃ es d', (description_to_entityset exManifest exDataFS []).2 =
        Except.ok (es, d') ∧
      d' = { exManifest with entities :=
        exManifest.entities.map (fun kv => (kv.1, mutatedEntityDescription [] kv.2)) } :=
  ⟨c9_amended_mutation_exact.1 exVarIndex none
     (VariableResult.cls VariableType.Index)
     { exVarIndex with type := TypeTag.obj [] } (by decide),
   c9_amended_mutation_exact.2 exManifest exDataFS [] (by decide)⟩

end Featuretools
